import Mathlib

/-!
Verification development for the Stratum V2 FFI header `protocols/v2/sv2-ffi/sv2.h`.

The header declares the wire-level constants of the SV2 framing codec (frame header
layout, Noise handshake message sizes, protocol and message-type discriminants,
channel bits) and the C-compatible data types of the messages.  The constants are
embedded below under their own names, with the values and defining expressions of
the header.  `uintptr_t` and `uint8_t` constants are natural numbers; every sum the
header forms is far below `2 ^ 16`, so no unsigned wrap-around occurs at any pointer
width (see `Sv2.size_constants_lt`).
-/

namespace Sv2

/-! Frame and handshake size constants (`uintptr_t`, one `uint16_t`). -/

/-- Identifier for the extension_type field in the SV2 frame, indicating no extensions. -/
def EXTENSION_TYPE_NO_EXTENSION : Nat := 0

/-- Size of the SV2 frame header in bytes. -/
def SV2_FRAME_HEADER_SIZE : Nat := 6

def SV2_FRAME_HEADER_LEN_OFFSET : Nat := 3

def SV2_FRAME_HEADER_LEN_END : Nat := 3

/-- Maximum size of an SV2 frame chunk in bytes. -/
def SV2_FRAME_CHUNK_SIZE : Nat := 65535

/-- Size of the MAC for supported AEAD encryption algorithm (ChaChaPoly). -/
def AEAD_MAC_LEN : Nat := 16

/-- Size of the encrypted SV2 frame header, including the MAC. -/
def ENCRYPTED_SV2_FRAME_HEADER_SIZE : Nat := (SV2_FRAME_HEADER_SIZE + AEAD_MAC_LEN)

/-- Size of the Noise protocol frame header in bytes. -/
def NOISE_FRAME_HEADER_SIZE : Nat := 2

def NOISE_FRAME_HEADER_LEN_OFFSET : Nat := 0

/-- Size in bytes of the encoded elliptic curve point using ElligatorSwift encoding. -/
def ELLSWIFT_ENCODING_SIZE : Nat := 64

def RESPONDER_EXPECTED_HANDSHAKE_MESSAGE_SIZE : Nat := ELLSWIFT_ENCODING_SIZE

def MAC : Nat := 16

/-- Size in bytes of the encrypted ElligatorSwift encoded data: the encoded data and a MAC. -/
def ENCRYPTED_ELLSWIFT_ENCODING_SIZE : Nat := (ELLSWIFT_ENCODING_SIZE + MAC)

/-- Size in bytes of the SIGNATURE_NOISE_MESSAGE. -/
def SIGNATURE_NOISE_MESSAGE_SIZE : Nat := 74

/-- Size in bytes of the encrypted signature noise message: the message and a MAC. -/
def ENCRYPTED_SIGNATURE_NOISE_MESSAGE_SIZE : Nat := (SIGNATURE_NOISE_MESSAGE_SIZE + MAC)

/-- Size in bytes of the handshake message expected by the initiator: the ElligatorSwift
encoded public key, the encrypted ElligatorSwift encoding and the encrypted
SIGNATURE_NOISE_MESSAGE. -/
def INITIATOR_EXPECTED_HANDSHAKE_MESSAGE_SIZE : Nat :=
  ((ELLSWIFT_ENCODING_SIZE + ENCRYPTED_ELLSWIFT_ENCODING_SIZE) + ENCRYPTED_SIGNATURE_NOISE_MESSAGE_SIZE)

/-! Protocol discriminants (`uint8_t`). -/

def SV2_MINING_PROTOCOL_DISCRIMINANT : Nat := 0

def SV2_JOB_DECLARATION_PROTOCOL_DISCRIMINANT : Nat := 1

def SV2_TEMPLATE_DISTR_PROTOCOL_DISCRIMINANT : Nat := 2

/-! Message-type discriminants (`uint8_t`), in declaration order. -/

def MESSAGE_TYPE_SETUP_CONNECTION : Nat := 0
def MESSAGE_TYPE_SETUP_CONNECTION_SUCCESS : Nat := 1
def MESSAGE_TYPE_SETUP_CONNECTION_ERROR : Nat := 2
def MESSAGE_TYPE_CHANNEL_ENDPOINT_CHANGED : Nat := 3
def MESSAGE_TYPE_OPEN_STANDARD_MINING_CHANNEL : Nat := 16
def MESSAGE_TYPE_OPEN_STANDARD_MINING_CHANNEL_SUCCESS : Nat := 17
def MESSAGE_TYPE_OPEN_MINING_CHANNEL_ERROR : Nat := 18
def MESSAGE_TYPE_OPEN_EXTENDED_MINING_CHANNEL : Nat := 19
def MESSAGE_TYPE_OPEN_EXTENDED_MINING_CHANNEL_SUCCES : Nat := 20
def MESSAGE_TYPE_NEW_MINING_JOB : Nat := 21
def MESSAGE_TYPE_UPDATE_CHANNEL : Nat := 22
def MESSAGE_TYPE_UPDATE_CHANNEL_ERROR : Nat := 23
def MESSAGE_TYPE_CLOSE_CHANNEL : Nat := 24
def MESSAGE_TYPE_SET_EXTRANONCE_PREFIX : Nat := 25
def MESSAGE_TYPE_SUBMIT_SHARES_STANDARD : Nat := 26
def MESSAGE_TYPE_SUBMIT_SHARES_EXTENDED : Nat := 27
def MESSAGE_TYPE_SUBMIT_SHARES_SUCCESS : Nat := 28
def MESSAGE_TYPE_SUBMIT_SHARES_ERROR : Nat := 29
def MESSAGE_TYPE_NEW_EXTENDED_MINING_JOB : Nat := 31
def MESSAGE_TYPE_MINING_SET_NEW_PREV_HASH : Nat := 32
def MESSAGE_TYPE_SET_TARGET : Nat := 33
def MESSAGE_TYPE_SET_CUSTOM_MINING_JOB : Nat := 34
def MESSAGE_TYPE_SET_CUSTOM_MINING_JOB_SUCCESS : Nat := 35
def MESSAGE_TYPE_SET_CUSTOM_MINING_JOB_ERROR : Nat := 36
def MESSAGE_TYPE_RECONNECT : Nat := 37
def MESSAGE_TYPE_SET_GROUP_CHANNEL : Nat := 38
def MESSAGE_TYPE_ALLOCATE_MINING_JOB_TOKEN : Nat := 80
def MESSAGE_TYPE_ALLOCATE_MINING_JOB_TOKEN_SUCCESS : Nat := 81
def MESSAGE_TYPE_IDENTIFY_TRANSACTIONS : Nat := 83
def MESSAGE_TYPE_IDENTIFY_TRANSACTIONS_SUCCESS : Nat := 84
def MESSAGE_TYPE_PROVIDE_MISSING_TRANSACTIONS : Nat := 85
def MESSAGE_TYPE_PROVIDE_MISSING_TRANSACTIONS_SUCCESS : Nat := 86
def MESSAGE_TYPE_DECLARE_MINING_JOB : Nat := 87
def MESSAGE_TYPE_DECLARE_MINING_JOB_SUCCESS : Nat := 88
def MESSAGE_TYPE_DECLARE_MINING_JOB_ERROR : Nat := 89
def MESSAGE_TYPE_SUBMIT_SOLUTION_JD : Nat := 96
def MESSAGE_TYPE_COINBASE_OUTPUT_DATA_SIZE : Nat := 112
def MESSAGE_TYPE_NEW_TEMPLATE : Nat := 113
def MESSAGE_TYPE_SET_NEW_PREV_HASH : Nat := 114
def MESSAGE_TYPE_REQUEST_TRANSACTION_DATA : Nat := 115
def MESSAGE_TYPE_REQUEST_TRANSACTION_DATA_SUCCESS : Nat := 116
def MESSAGE_TYPE_REQUEST_TRANSACTION_DATA_ERROR : Nat := 117
def MESSAGE_TYPE_SUBMIT_SOLUTION : Nat := 118

/-! Channel bits (`bool`), in declaration order. -/

def CHANNEL_BIT_SETUP_CONNECTION : Bool := false
def CHANNEL_BIT_SETUP_CONNECTION_SUCCESS : Bool := false
def CHANNEL_BIT_SETUP_CONNECTION_ERROR : Bool := false
def CHANNEL_BIT_CHANNEL_ENDPOINT_CHANGED : Bool := true
def CHANNEL_BIT_COINBASE_OUTPUT_DATA_SIZE : Bool := false
def CHANNEL_BIT_NEW_TEMPLATE : Bool := false
def CHANNEL_BIT_SET_NEW_PREV_HASH : Bool := false
def CHANNEL_BIT_REQUEST_TRANSACTION_DATA : Bool := false
def CHANNEL_BIT_REQUEST_TRANSACTION_DATA_SUCCESS : Bool := false
def CHANNEL_BIT_REQUEST_TRANSACTION_DATA_ERROR : Bool := false
def CHANNEL_BIT_SUBMIT_SOLUTION : Bool := false
def CHANNEL_BIT_ALLOCATE_MINING_JOB_TOKEN : Bool := false
def CHANNEL_BIT_ALLOCATE_MINING_JOB_TOKEN_SUCCESS : Bool := false
def CHANNEL_BIT_DECLARE_MINING_JOB : Bool := false
def CHANNEL_BIT_DECLARE_MINING_JOB_SUCCESS : Bool := false
def CHANNEL_BIT_DECLARE_MINING_JOB_ERROR : Bool := false
def CHANNEL_BIT_IDENTIFY_TRANSACTIONS : Bool := false
def CHANNEL_BIT_IDENTIFY_TRANSACTIONS_SUCCESS : Bool := false
def CHANNEL_BIT_PROVIDE_MISSING_TRANSACTIONS : Bool := false
def CHANNEL_BIT_PROVIDE_MISSING_TRANSACTIONS_SUCCESS : Bool := false
def CHANNEL_BIT_SUBMIT_SOLUTION_JD : Bool := true
def CHANNEL_BIT_CLOSE_CHANNEL : Bool := true
def CHANNEL_BIT_NEW_EXTENDED_MINING_JOB : Bool := true
def CHANNEL_BIT_NEW_MINING_JOB : Bool := true
def CHANNEL_BIT_OPEN_EXTENDED_MINING_CHANNEL : Bool := false
def CHANNEL_BIT_OPEN_EXTENDED_MINING_CHANNEL_SUCCES : Bool := false
def CHANNEL_BIT_OPEN_MINING_CHANNEL_ERROR : Bool := false
def CHANNEL_BIT_OPEN_STANDARD_MINING_CHANNEL : Bool := false
def CHANNEL_BIT_OPEN_STANDARD_MINING_CHANNEL_SUCCESS : Bool := false
def CHANNEL_BIT_RECONNECT : Bool := false
def CHANNEL_BIT_SET_CUSTOM_MINING_JOB : Bool := false
def CHANNEL_BIT_SET_CUSTOM_MINING_JOB_ERROR : Bool := false
def CHANNEL_BIT_SET_CUSTOM_MINING_JOB_SUCCESS : Bool := false
def CHANNEL_BIT_SET_EXTRANONCE_PREFIX : Bool := true
def CHANNEL_BIT_SET_GROUP_CHANNEL : Bool := false
def CHANNEL_BIT_MINING_SET_NEW_PREV_HASH : Bool := true
def CHANNEL_BIT_SET_TARGET : Bool := true
def CHANNEL_BIT_SUBMIT_SHARES_ERROR : Bool := true
def CHANNEL_BIT_SUBMIT_SHARES_EXTENDED : Bool := true
def CHANNEL_BIT_SUBMIT_SHARES_STANDARD : Bool := true
def CHANNEL_BIT_SUBMIT_SHARES_SUCCESS : Bool := true
def CHANNEL_BIT_UPDATE_CHANNEL : Bool := true
def CHANNEL_BIT_UPDATE_CHANNEL_ERROR : Bool := true

/-- The `MESSAGE_TYPE_` constants as a table, one row per constant in declaration
order: the constant's name after the `MESSAGE_TYPE_` part, and its value. -/
def messageTypes : List (String × Nat) :=
  [ ("SETUP_CONNECTION", MESSAGE_TYPE_SETUP_CONNECTION),
    ("SETUP_CONNECTION_SUCCESS", MESSAGE_TYPE_SETUP_CONNECTION_SUCCESS),
    ("SETUP_CONNECTION_ERROR", MESSAGE_TYPE_SETUP_CONNECTION_ERROR),
    ("CHANNEL_ENDPOINT_CHANGED", MESSAGE_TYPE_CHANNEL_ENDPOINT_CHANGED),
    ("OPEN_STANDARD_MINING_CHANNEL", MESSAGE_TYPE_OPEN_STANDARD_MINING_CHANNEL),
    ("OPEN_STANDARD_MINING_CHANNEL_SUCCESS", MESSAGE_TYPE_OPEN_STANDARD_MINING_CHANNEL_SUCCESS),
    ("OPEN_MINING_CHANNEL_ERROR", MESSAGE_TYPE_OPEN_MINING_CHANNEL_ERROR),
    ("OPEN_EXTENDED_MINING_CHANNEL", MESSAGE_TYPE_OPEN_EXTENDED_MINING_CHANNEL),
    ("OPEN_EXTENDED_MINING_CHANNEL_SUCCES", MESSAGE_TYPE_OPEN_EXTENDED_MINING_CHANNEL_SUCCES),
    ("NEW_MINING_JOB", MESSAGE_TYPE_NEW_MINING_JOB),
    ("UPDATE_CHANNEL", MESSAGE_TYPE_UPDATE_CHANNEL),
    ("UPDATE_CHANNEL_ERROR", MESSAGE_TYPE_UPDATE_CHANNEL_ERROR),
    ("CLOSE_CHANNEL", MESSAGE_TYPE_CLOSE_CHANNEL),
    ("SET_EXTRANONCE_PREFIX", MESSAGE_TYPE_SET_EXTRANONCE_PREFIX),
    ("SUBMIT_SHARES_STANDARD", MESSAGE_TYPE_SUBMIT_SHARES_STANDARD),
    ("SUBMIT_SHARES_EXTENDED", MESSAGE_TYPE_SUBMIT_SHARES_EXTENDED),
    ("SUBMIT_SHARES_SUCCESS", MESSAGE_TYPE_SUBMIT_SHARES_SUCCESS),
    ("SUBMIT_SHARES_ERROR", MESSAGE_TYPE_SUBMIT_SHARES_ERROR),
    ("NEW_EXTENDED_MINING_JOB", MESSAGE_TYPE_NEW_EXTENDED_MINING_JOB),
    ("MINING_SET_NEW_PREV_HASH", MESSAGE_TYPE_MINING_SET_NEW_PREV_HASH),
    ("SET_TARGET", MESSAGE_TYPE_SET_TARGET),
    ("SET_CUSTOM_MINING_JOB", MESSAGE_TYPE_SET_CUSTOM_MINING_JOB),
    ("SET_CUSTOM_MINING_JOB_SUCCESS", MESSAGE_TYPE_SET_CUSTOM_MINING_JOB_SUCCESS),
    ("SET_CUSTOM_MINING_JOB_ERROR", MESSAGE_TYPE_SET_CUSTOM_MINING_JOB_ERROR),
    ("RECONNECT", MESSAGE_TYPE_RECONNECT),
    ("SET_GROUP_CHANNEL", MESSAGE_TYPE_SET_GROUP_CHANNEL),
    ("ALLOCATE_MINING_JOB_TOKEN", MESSAGE_TYPE_ALLOCATE_MINING_JOB_TOKEN),
    ("ALLOCATE_MINING_JOB_TOKEN_SUCCESS", MESSAGE_TYPE_ALLOCATE_MINING_JOB_TOKEN_SUCCESS),
    ("IDENTIFY_TRANSACTIONS", MESSAGE_TYPE_IDENTIFY_TRANSACTIONS),
    ("IDENTIFY_TRANSACTIONS_SUCCESS", MESSAGE_TYPE_IDENTIFY_TRANSACTIONS_SUCCESS),
    ("PROVIDE_MISSING_TRANSACTIONS", MESSAGE_TYPE_PROVIDE_MISSING_TRANSACTIONS),
    ("PROVIDE_MISSING_TRANSACTIONS_SUCCESS", MESSAGE_TYPE_PROVIDE_MISSING_TRANSACTIONS_SUCCESS),
    ("DECLARE_MINING_JOB", MESSAGE_TYPE_DECLARE_MINING_JOB),
    ("DECLARE_MINING_JOB_SUCCESS", MESSAGE_TYPE_DECLARE_MINING_JOB_SUCCESS),
    ("DECLARE_MINING_JOB_ERROR", MESSAGE_TYPE_DECLARE_MINING_JOB_ERROR),
    ("SUBMIT_SOLUTION_JD", MESSAGE_TYPE_SUBMIT_SOLUTION_JD),
    ("COINBASE_OUTPUT_DATA_SIZE", MESSAGE_TYPE_COINBASE_OUTPUT_DATA_SIZE),
    ("NEW_TEMPLATE", MESSAGE_TYPE_NEW_TEMPLATE),
    ("SET_NEW_PREV_HASH", MESSAGE_TYPE_SET_NEW_PREV_HASH),
    ("REQUEST_TRANSACTION_DATA", MESSAGE_TYPE_REQUEST_TRANSACTION_DATA),
    ("REQUEST_TRANSACTION_DATA_SUCCESS", MESSAGE_TYPE_REQUEST_TRANSACTION_DATA_SUCCESS),
    ("REQUEST_TRANSACTION_DATA_ERROR", MESSAGE_TYPE_REQUEST_TRANSACTION_DATA_ERROR),
    ("SUBMIT_SOLUTION", MESSAGE_TYPE_SUBMIT_SOLUTION) ]

/-- The `CHANNEL_BIT_` constants as a table, one row per constant in declaration
order: the constant's name after the `CHANNEL_BIT_` part, and its value. -/
def channelBits : List (String × Bool) :=
  [ ("SETUP_CONNECTION", CHANNEL_BIT_SETUP_CONNECTION),
    ("SETUP_CONNECTION_SUCCESS", CHANNEL_BIT_SETUP_CONNECTION_SUCCESS),
    ("SETUP_CONNECTION_ERROR", CHANNEL_BIT_SETUP_CONNECTION_ERROR),
    ("CHANNEL_ENDPOINT_CHANGED", CHANNEL_BIT_CHANNEL_ENDPOINT_CHANGED),
    ("COINBASE_OUTPUT_DATA_SIZE", CHANNEL_BIT_COINBASE_OUTPUT_DATA_SIZE),
    ("NEW_TEMPLATE", CHANNEL_BIT_NEW_TEMPLATE),
    ("SET_NEW_PREV_HASH", CHANNEL_BIT_SET_NEW_PREV_HASH),
    ("REQUEST_TRANSACTION_DATA", CHANNEL_BIT_REQUEST_TRANSACTION_DATA),
    ("REQUEST_TRANSACTION_DATA_SUCCESS", CHANNEL_BIT_REQUEST_TRANSACTION_DATA_SUCCESS),
    ("REQUEST_TRANSACTION_DATA_ERROR", CHANNEL_BIT_REQUEST_TRANSACTION_DATA_ERROR),
    ("SUBMIT_SOLUTION", CHANNEL_BIT_SUBMIT_SOLUTION),
    ("ALLOCATE_MINING_JOB_TOKEN", CHANNEL_BIT_ALLOCATE_MINING_JOB_TOKEN),
    ("ALLOCATE_MINING_JOB_TOKEN_SUCCESS", CHANNEL_BIT_ALLOCATE_MINING_JOB_TOKEN_SUCCESS),
    ("DECLARE_MINING_JOB", CHANNEL_BIT_DECLARE_MINING_JOB),
    ("DECLARE_MINING_JOB_SUCCESS", CHANNEL_BIT_DECLARE_MINING_JOB_SUCCESS),
    ("DECLARE_MINING_JOB_ERROR", CHANNEL_BIT_DECLARE_MINING_JOB_ERROR),
    ("IDENTIFY_TRANSACTIONS", CHANNEL_BIT_IDENTIFY_TRANSACTIONS),
    ("IDENTIFY_TRANSACTIONS_SUCCESS", CHANNEL_BIT_IDENTIFY_TRANSACTIONS_SUCCESS),
    ("PROVIDE_MISSING_TRANSACTIONS", CHANNEL_BIT_PROVIDE_MISSING_TRANSACTIONS),
    ("PROVIDE_MISSING_TRANSACTIONS_SUCCESS", CHANNEL_BIT_PROVIDE_MISSING_TRANSACTIONS_SUCCESS),
    ("SUBMIT_SOLUTION_JD", CHANNEL_BIT_SUBMIT_SOLUTION_JD),
    ("CLOSE_CHANNEL", CHANNEL_BIT_CLOSE_CHANNEL),
    ("NEW_EXTENDED_MINING_JOB", CHANNEL_BIT_NEW_EXTENDED_MINING_JOB),
    ("NEW_MINING_JOB", CHANNEL_BIT_NEW_MINING_JOB),
    ("OPEN_EXTENDED_MINING_CHANNEL", CHANNEL_BIT_OPEN_EXTENDED_MINING_CHANNEL),
    ("OPEN_EXTENDED_MINING_CHANNEL_SUCCES", CHANNEL_BIT_OPEN_EXTENDED_MINING_CHANNEL_SUCCES),
    ("OPEN_MINING_CHANNEL_ERROR", CHANNEL_BIT_OPEN_MINING_CHANNEL_ERROR),
    ("OPEN_STANDARD_MINING_CHANNEL", CHANNEL_BIT_OPEN_STANDARD_MINING_CHANNEL),
    ("OPEN_STANDARD_MINING_CHANNEL_SUCCESS", CHANNEL_BIT_OPEN_STANDARD_MINING_CHANNEL_SUCCESS),
    ("RECONNECT", CHANNEL_BIT_RECONNECT),
    ("SET_CUSTOM_MINING_JOB", CHANNEL_BIT_SET_CUSTOM_MINING_JOB),
    ("SET_CUSTOM_MINING_JOB_ERROR", CHANNEL_BIT_SET_CUSTOM_MINING_JOB_ERROR),
    ("SET_CUSTOM_MINING_JOB_SUCCESS", CHANNEL_BIT_SET_CUSTOM_MINING_JOB_SUCCESS),
    ("SET_EXTRANONCE_PREFIX", CHANNEL_BIT_SET_EXTRANONCE_PREFIX),
    ("SET_GROUP_CHANNEL", CHANNEL_BIT_SET_GROUP_CHANNEL),
    ("MINING_SET_NEW_PREV_HASH", CHANNEL_BIT_MINING_SET_NEW_PREV_HASH),
    ("SET_TARGET", CHANNEL_BIT_SET_TARGET),
    ("SUBMIT_SHARES_ERROR", CHANNEL_BIT_SUBMIT_SHARES_ERROR),
    ("SUBMIT_SHARES_EXTENDED", CHANNEL_BIT_SUBMIT_SHARES_EXTENDED),
    ("SUBMIT_SHARES_STANDARD", CHANNEL_BIT_SUBMIT_SHARES_STANDARD),
    ("SUBMIT_SHARES_SUCCESS", CHANNEL_BIT_SUBMIT_SHARES_SUCCESS),
    ("UPDATE_CHANNEL", CHANNEL_BIT_UPDATE_CHANNEL),
    ("UPDATE_CHANNEL_ERROR", CHANNEL_BIT_UPDATE_CHANNEL_ERROR) ]

/-- The rows of a table from the one named `first` through the one named `last`, both
included, in declaration order (empty when `first` does not occur). -/
def through (first last : String) (t : List (String × Nat)) : List (String × Nat) :=
  let fromFirst := t.dropWhile (fun e => e.1 != first)
  fromFirst.takeWhile (fun e => e.1 != last) ++ (fromFirst.dropWhile (fun e => e.1 != last)).take 1

/-- The job-declaration message types: `MESSAGE_TYPE_ALLOCATE_MINING_JOB_TOKEN` through
`MESSAGE_TYPE_SUBMIT_SOLUTION_JD`. -/
def jobDeclarationTypes : List (String × Nat) :=
  through "ALLOCATE_MINING_JOB_TOKEN" "SUBMIT_SOLUTION_JD" messageTypes

/-- The template-distribution message types: `MESSAGE_TYPE_COINBASE_OUTPUT_DATA_SIZE` through
`MESSAGE_TYPE_SUBMIT_SOLUTION`. -/
def templateDistributionTypes : List (String × Nat) :=
  through "COINBASE_OUTPUT_DATA_SIZE" "SUBMIT_SOLUTION" messageTypes

/-- The setup and mining message types: every row of the table that is in neither of the
other two groups. -/
def setupMiningTypes : List (String × Nat) :=
  messageTypes.filter (fun e => e ∉ jobDeclarationTypes ∧ e ∉ templateDistributionTypes)

/-- The three discriminant ranges, as inclusive bounds: setup and mining, job declaration,
template distribution. -/
def discriminantRanges : List (Nat × Nat) := [(0, 38), (80, 96), (112, 118)]

/-- Whether `d` lies in the inclusive range `r`. -/
def inRange (d : Nat) (r : Nat × Nat) : Bool := decide (r.1 ≤ d) && decide (d ≤ r.2)

/-- The `Protocol` enumeration, `enum class Protocol : uint8_t`. -/
inductive Protocol where
  | MiningProtocol
  | JobDeclarationProtocol
  | TemplateDistributionProtocol
  deriving DecidableEq

/-- The underlying `uint8_t` value the enum declaration gives each enumerator. -/
def Protocol.discriminant : Protocol → Nat
  | .MiningProtocol => SV2_MINING_PROTOCOL_DISCRIMINANT
  | .JobDeclarationProtocol => SV2_JOB_DECLARATION_PROTOCOL_DISCRIMINANT
  | .TemplateDistributionProtocol => SV2_TEMPLATE_DISTR_PROTOCOL_DISCRIMINANT

/-- The enumerators of `Protocol`, in declaration order. -/
def Protocol.all : List Protocol :=
  [.MiningProtocol, .JobDeclarationProtocol, .TemplateDistributionProtocol]

/-- The conversion of a byte back to an enumerator: the first enumerator declared with that
value, and nothing for a byte that no enumerator carries.  The header declares no function
for this direction; it is read off the enum declaration. -/
def Protocol.ofDiscriminant (b : Nat) : Option Protocol :=
  Protocol.all.find? (fun p => p.discriminant == b)

/-- The 24-bit length type, `struct U24 { uint32_t _0; }`: a 32-bit unsigned integer of
which the low 24 bits are the value. -/
structure U24 where
  _0 : Nat
  deriving DecidableEq

/-- Modelled from the spec: the frame header record `MessageHeader` of section 3, which the
header file does not declare: a 16-bit extension type, an 8-bit message type and a
`U24` payload length. -/
structure MessageHeader where
  extension_type : Nat
  msg_type : Nat
  length : U24
  deriving DecidableEq

/-- Modelled from the spec: the error `MalformedHeader` of section 4.1, the only failure of
header parsing. -/
inductive HeaderError where
  | MalformedHeader
  deriving DecidableEq

/-- The `width` low-order bytes of `n`, least significant first. -/
def toLeBytes (n : Nat) : Nat → List Nat
  | 0 => []
  | width + 1 => n % 256 :: toLeBytes (n / 256) width

/-- The number whose little-endian bytes are `bytes`. -/
def fromLeBytes : List Nat → Nat
  | [] => 0
  | b :: rest => b + 256 * fromLeBytes rest

/-- Modelled from the spec: `serializeHeader` of sections 4.1 and 6, absent from the header
file: extension_type on 2 bytes, msg_type on 1 byte, then the low 24 bits of the length on
`SV2_FRAME_HEADER_LEN_END` (3) bytes, never the high byte of the 32-bit value; fields are
little-endian. -/
def serializeHeader (h : MessageHeader) : List Nat :=
  toLeBytes h.extension_type 2 ++ toLeBytes h.msg_type 1 ++
    toLeBytes h.length._0 SV2_FRAME_HEADER_LEN_END

/-- Modelled from the spec: `parseHeader` of sections 4.1 and 6, absent from the header
file: fails with `MalformedHeader` on fewer than `SV2_FRAME_HEADER_SIZE` (6) bytes, and
otherwise reads extension_type from bytes 0 and 1, msg_type from byte 2 and the length
from the `SV2_FRAME_HEADER_LEN_END` (3) bytes at offset `SV2_FRAME_HEADER_LEN_OFFSET` (3). -/
def parseHeader (bytes : List Nat) : Except HeaderError MessageHeader :=
  if bytes.length < SV2_FRAME_HEADER_SIZE then .error .MalformedHeader
  else .ok
    { extension_type := fromLeBytes (bytes.take 2)
      msg_type := fromLeBytes ((bytes.drop 2).take 1)
      length := ⟨fromLeBytes ((bytes.drop SV2_FRAME_HEADER_LEN_OFFSET).take SV2_FRAME_HEADER_LEN_END)⟩ }

/-- Modelled from the spec: the field widths of the plaintext frame header in bytes, as
section 6 lists them: `extension_type(u16) | msg_type(u8) | length(u24)`. -/
def headerFieldWidths : List Nat := [2, 1, 3]

/-! Supporting facts. -/

/-- Every size constant of the header is below `2 ^ 16`: the sums that define them do not
wrap around at any width of `uintptr_t`. -/
theorem size_constants_lt :
    ∀ c ∈ [SV2_FRAME_HEADER_SIZE, SV2_FRAME_HEADER_LEN_OFFSET, SV2_FRAME_HEADER_LEN_END,
      SV2_FRAME_CHUNK_SIZE, AEAD_MAC_LEN, ENCRYPTED_SV2_FRAME_HEADER_SIZE,
      NOISE_FRAME_HEADER_SIZE, NOISE_FRAME_HEADER_LEN_OFFSET, ELLSWIFT_ENCODING_SIZE,
      RESPONDER_EXPECTED_HANDSHAKE_MESSAGE_SIZE, MAC, ENCRYPTED_ELLSWIFT_ENCODING_SIZE,
      SIGNATURE_NOISE_MESSAGE_SIZE, ENCRYPTED_SIGNATURE_NOISE_MESSAGE_SIZE,
      INITIATOR_EXPECTED_HANDSHAKE_MESSAGE_SIZE], c < 2 ^ 16 := by
  decide

/-- Every message-type discriminant fits the `uint8_t` it is declared with. -/
theorem message_types_fit_byte : ∀ e ∈ messageTypes, e.2 < 256 := by
  decide

/-- The three groups of message types have 26, 10 and 7 rows, and together they are the
whole table of 43 rows. -/
theorem group_sizes :
    setupMiningTypes.length = 26 ∧ jobDeclarationTypes.length = 10 ∧
      templateDistributionTypes.length = 7 ∧
      setupMiningTypes ++ jobDeclarationTypes ++ templateDistributionTypes = messageTypes := by
  decide

/-- Reading `width` little-endian bytes back gives the number modulo `256 ^ width`. -/
theorem fromLeBytes_toLeBytes (width n : Nat) :
    fromLeBytes (toLeBytes n width) = n % 256 ^ width := by
  induction width generalizing n with
  | zero => simp [toLeBytes, fromLeBytes, Nat.mod_one]
  | succ k ih =>
    simp only [toLeBytes, fromLeBytes, ih]
    rw [Nat.pow_succ, Nat.mul_comm (256 ^ k) 256, Nat.mod_mul]

/-- Serialization writes `width` bytes, each below 256. -/
theorem toLeBytes_spec (width n : Nat) :
    (toLeBytes n width).length = width ∧ ∀ b ∈ toLeBytes n width, b < 256 := by
  induction width generalizing n with
  | zero => simp [toLeBytes]
  | succ k ih =>
    refine ⟨by simp [toLeBytes, (ih (n / 256)).1], ?_⟩
    intro b hb
    simp only [toLeBytes, List.mem_cons] at hb
    rcases hb with rfl | hb
    · exact Nat.mod_lt _ (by decide)
    · exact (ih (n / 256)).2 b hb

/-- The scenario of section 8, item 7: the header bytes `00 00 00 02 00 00` parse to
extension type 0, message type 0 (the SetupConnection discriminant) and length 2, and
serializing that header gives the same six bytes back. -/
theorem header_scenario :
    parseHeader [0x00, 0x00, 0x00, 0x02, 0x00, 0x00]
        = .ok ⟨EXTENSION_TYPE_NO_EXTENSION, MESSAGE_TYPE_SETUP_CONNECTION, ⟨2⟩⟩ ∧
      serializeHeader ⟨EXTENSION_TYPE_NO_EXTENSION, MESSAGE_TYPE_SETUP_CONNECTION, ⟨2⟩⟩
        = [0x00, 0x00, 0x00, 0x02, 0x00, 0x00] :=
  ⟨rfl, rfl⟩

/-- Fewer than six bytes do not parse: the result is `MalformedHeader`. -/
theorem parseHeader_short (bytes : List Nat) (h : bytes.length < 6) :
    parseHeader bytes = .error .MalformedHeader := by
  simp [parseHeader, SV2_FRAME_HEADER_SIZE, h]

/-- Only the low 24 bits of the 32-bit length are carried: after a round trip the length is
the original one modulo `2 ^ 24`, whatever the high byte was. -/
theorem header_round_trip_low24 (h : MessageHeader) (hext : h.extension_type < 2 ^ 16)
    (hmsg : h.msg_type < 2 ^ 8) :
    parseHeader (serializeHeader h)
      = .ok ⟨h.extension_type, h.msg_type, ⟨h.length._0 % 2 ^ 24⟩⟩ := by
  obtain ⟨e, m, ⟨l⟩⟩ := h
  simp only at hext hmsg
  simp [parseHeader, serializeHeader, toLeBytes, fromLeBytes, SV2_FRAME_HEADER_SIZE,
    SV2_FRAME_HEADER_LEN_END, SV2_FRAME_HEADER_LEN_OFFSET]
  omega

/-! The claims. -/

/-- C1: the handshake size constants have the values the spec fixes: the encoded point is
64 bytes, the encrypted point 80 = 64 + 16 (MAC), the signature message 74, the encrypted
signature message 90 = 74 + 16 (MAC), and the message the initiator expects
234 = 64 + 80 + 90. -/
theorem handshake_size_constants :
    ELLSWIFT_ENCODING_SIZE = 64 ∧
      MAC = 16 ∧
      ENCRYPTED_ELLSWIFT_ENCODING_SIZE = 80 ∧
      ENCRYPTED_ELLSWIFT_ENCODING_SIZE = ELLSWIFT_ENCODING_SIZE + MAC ∧
      SIGNATURE_NOISE_MESSAGE_SIZE = 74 ∧
      ENCRYPTED_SIGNATURE_NOISE_MESSAGE_SIZE = 90 ∧
      ENCRYPTED_SIGNATURE_NOISE_MESSAGE_SIZE = SIGNATURE_NOISE_MESSAGE_SIZE + MAC ∧
      INITIATOR_EXPECTED_HANDSHAKE_MESSAGE_SIZE = 234 ∧
      INITIATOR_EXPECTED_HANDSHAKE_MESSAGE_SIZE = 64 + 80 + 90 := by
  decide

/-- C2: the first handshake message the responder expects is exactly 64 bytes, the size of
one bare encoded point, with no MAC added (it is shorter than the encrypted point by the
MAC). -/
theorem responder_expected_size :
    RESPONDER_EXPECTED_HANDSHAKE_MESSAGE_SIZE = 64 ∧
      RESPONDER_EXPECTED_HANDSHAKE_MESSAGE_SIZE = ELLSWIFT_ENCODING_SIZE ∧
      RESPONDER_EXPECTED_HANDSHAKE_MESSAGE_SIZE + MAC = ENCRYPTED_ELLSWIFT_ENCODING_SIZE := by
  decide

/-- C3: the message table gives the five examples of the spec their discriminant and
channel bit: SetupConnection 0 and false, NewMiningJob 21 and true, SubmitSharesStandard 26
and true, NewTemplate 113 and false, SetNewPrevHash (template distribution) 114 and false;
each both as the constant and as the row of its name in the table. -/
theorem message_table_examples :
    (MESSAGE_TYPE_SETUP_CONNECTION = 0 ∧ CHANNEL_BIT_SETUP_CONNECTION = false) ∧
      (MESSAGE_TYPE_NEW_MINING_JOB = 21 ∧ CHANNEL_BIT_NEW_MINING_JOB = true) ∧
      (MESSAGE_TYPE_SUBMIT_SHARES_STANDARD = 26 ∧ CHANNEL_BIT_SUBMIT_SHARES_STANDARD = true) ∧
      (MESSAGE_TYPE_NEW_TEMPLATE = 113 ∧ CHANNEL_BIT_NEW_TEMPLATE = false) ∧
      (MESSAGE_TYPE_SET_NEW_PREV_HASH = 114 ∧ CHANNEL_BIT_SET_NEW_PREV_HASH = false) ∧
      (messageTypes.lookup "SETUP_CONNECTION" = some 0 ∧
        channelBits.lookup "SETUP_CONNECTION" = some false) ∧
      (messageTypes.lookup "NEW_MINING_JOB" = some 21 ∧
        channelBits.lookup "NEW_MINING_JOB" = some true) ∧
      (messageTypes.lookup "SUBMIT_SHARES_STANDARD" = some 26 ∧
        channelBits.lookup "SUBMIT_SHARES_STANDARD" = some true) ∧
      (messageTypes.lookup "NEW_TEMPLATE" = some 113 ∧
        channelBits.lookup "NEW_TEMPLATE" = some false) ∧
      (messageTypes.lookup "SET_NEW_PREV_HASH" = some 114 ∧
        channelBits.lookup "SET_NEW_PREV_HASH" = some false) := by
  decide

set_option maxRecDepth 100000 in
/-- C4: the discriminant of every row of the message-type table lies in exactly one of the
ranges 0..38, 80..96 and 112..118, and the range is the one of the row's sub-protocol: a
job-declaration type (AllocateMiningJobToken through SubmitSolutionJd) is in 80..96, a
template-distribution type (CoinbaseOutputDataSize through SubmitSolution) in 112..118,
and a setup or mining type in 0..38; every row is in one of the three groups. -/
theorem message_type_ranges (e : String × Nat) (h : e ∈ messageTypes) :
    (discriminantRanges.filter (inRange e.2)).length = 1 ∧
      (e ∈ jobDeclarationTypes → 80 ≤ e.2 ∧ e.2 ≤ 96) ∧
      (e ∈ templateDistributionTypes → 112 ≤ e.2 ∧ e.2 ≤ 118) ∧
      (e ∈ setupMiningTypes → 0 ≤ e.2 ∧ e.2 ≤ 38) ∧
      (e ∈ setupMiningTypes ∨ e ∈ jobDeclarationTypes ∨ e ∈ templateDistributionTypes) := by
  revert e
  decide

/-- The theorem `message_type_ranges` at the row of `MESSAGE_TYPE_SUBMIT_SOLUTION_JD`. -/
theorem message_type_ranges_witness :
    ("SUBMIT_SOLUTION_JD", 96) ∈ messageTypes ∧
      (discriminantRanges.filter (inRange 96)).length = 1 ∧
      (("SUBMIT_SOLUTION_JD", 96) ∈ jobDeclarationTypes → 80 ≤ 96 ∧ 96 ≤ 96) :=
  have hmem : ("SUBMIT_SOLUTION_JD", 96) ∈ messageTypes := by decide
  ⟨hmem, (message_type_ranges ("SUBMIT_SOLUTION_JD", 96) hmem).1,
    (message_type_ranges ("SUBMIT_SOLUTION_JD", 96) hmem).2.1⟩

set_option maxRecDepth 100000 in
/-- C5: the registry is total in both directions: a name with a `MESSAGE_TYPE_` constant
has exactly one `CHANNEL_BIT_` constant, a name with a `CHANNEL_BIT_` constant has a
`MESSAGE_TYPE_` constant, and so a name of either table has both a wire discriminant and a
channel bit. -/
theorem registry_total (name : String) :
    (name ∈ messageTypes.map Prod.fst →
        (channelBits.filter (fun c => c.1 = name)).length = 1) ∧
      (name ∈ channelBits.map Prod.fst → name ∈ messageTypes.map Prod.fst) ∧
      (name ∈ messageTypes.map Prod.fst ∨ name ∈ channelBits.map Prod.fst →
        (messageTypes.lookup name).isSome = true ∧ (channelBits.lookup name).isSome = true) := by
  have hm : ∀ n ∈ messageTypes.map Prod.fst,
      (channelBits.filter (fun c => c.1 = n)).length = 1 ∧
        (messageTypes.lookup n).isSome = true ∧ (channelBits.lookup n).isSome = true := by
    decide
  have hc : ∀ n ∈ channelBits.map Prod.fst, n ∈ messageTypes.map Prod.fst := by
    decide
  refine ⟨fun h => (hm name h).1, hc name, ?_⟩
  rintro (h | h)
  · exact (hm name h).2
  · exact (hm name (hc name h)).2

/-- The theorem `registry_total` at the name `SET_NEW_PREV_HASH`. -/
theorem registry_total_witness :
    (channelBits.filter (fun c => c.1 = "SET_NEW_PREV_HASH")).length = 1 ∧
      "SET_NEW_PREV_HASH" ∈ messageTypes.map Prod.fst :=
  ⟨(registry_total "SET_NEW_PREV_HASH").1 (by decide),
    (registry_total "SET_NEW_PREV_HASH").2.1 (by decide)⟩

/-- C6: the layout constants of the plaintext frame header agree with the field widths of
the spec: the header is 6 bytes, the length field starts at offset 3 = 2 (extension_type)
+ 1 (msg_type), is 3 bytes wide (the value of `SV2_FRAME_HEADER_LEN_END`), and ends at the
end of the header, 3 + 3 = 6. -/
theorem frame_header_layout :
    SV2_FRAME_HEADER_SIZE = 6 ∧
      headerFieldWidths.sum = SV2_FRAME_HEADER_SIZE ∧
      SV2_FRAME_HEADER_LEN_OFFSET = 3 ∧
      SV2_FRAME_HEADER_LEN_OFFSET = 2 + 1 ∧
      (headerFieldWidths.take 2).sum = SV2_FRAME_HEADER_LEN_OFFSET ∧
      SV2_FRAME_HEADER_LEN_END = 3 ∧
      headerFieldWidths.drop 2 = [SV2_FRAME_HEADER_LEN_END] ∧
      SV2_FRAME_HEADER_LEN_OFFSET + SV2_FRAME_HEADER_LEN_END = SV2_FRAME_HEADER_SIZE := by
  decide

/-- C7: the encrypted frame header is the plaintext header plus one AEAD MAC,
6 + 16 = 22 bytes. -/
theorem encrypted_header_size :
    ENCRYPTED_SV2_FRAME_HEADER_SIZE = SV2_FRAME_HEADER_SIZE + AEAD_MAC_LEN ∧
      SV2_FRAME_HEADER_SIZE = 6 ∧ AEAD_MAC_LEN = 16 ∧
      ENCRYPTED_SV2_FRAME_HEADER_SIZE = 22 := by
  decide

/-- C8: `Protocol` has exactly the three enumerators MiningProtocol, JobDeclarationProtocol
and TemplateDistributionProtocol, with the one-byte discriminants 0, 1 and 2, which are
pairwise distinct, so taking an enumerator to its byte and back gives the enumerator. -/
theorem protocol_discriminants :
    (∀ p : Protocol, p = .MiningProtocol ∨ p = .JobDeclarationProtocol ∨
        p = .TemplateDistributionProtocol) ∧
      Protocol.all.length = 3 ∧ Protocol.all.Nodup ∧
      Protocol.MiningProtocol.discriminant = 0 ∧
      Protocol.JobDeclarationProtocol.discriminant = 1 ∧
      Protocol.TemplateDistributionProtocol.discriminant = 2 ∧
      (∀ p : Protocol, p.discriminant < 256) ∧
      (∀ p q : Protocol, p.discriminant = q.discriminant → p = q) ∧
      (∀ p : Protocol, Protocol.ofDiscriminant p.discriminant = some p) := by
  refine ⟨?_, by decide, by decide, rfl, rfl, rfl, ?_, ?_, ?_⟩
  · intro p; cases p <;> simp
  · intro p; cases p <;> decide
  · intro p q; cases p <;> cases q <;> decide
  · intro p; cases p <;> rfl

/-- The theorem `protocol_discriminants` at JobDeclarationProtocol: its byte is 1, the byte
decodes to it, and the enumerator sharing its byte with MiningProtocol would be
MiningProtocol itself. -/
theorem protocol_discriminants_witness :
    Protocol.ofDiscriminant 1 = some Protocol.JobDeclarationProtocol ∧
      Protocol.ofDiscriminant 3 = none ∧
      (Protocol.MiningProtocol.discriminant = Protocol.MiningProtocol.discriminant →
        Protocol.MiningProtocol = Protocol.MiningProtocol) :=
  ⟨protocol_discriminants.2.2.2.2.2.2.2.2 .JobDeclarationProtocol, rfl,
    protocol_discriminants.2.2.2.2.2.2.2.1 .MiningProtocol .MiningProtocol⟩

/-- C9: header round trip: a header with a 16-bit extension type, an 8-bit message type and
a length below `2 ^ 24` serializes to 6 bytes, each below 256, and parsing them returns the
header. -/
theorem header_round_trip (h : MessageHeader) (hext : h.extension_type < 2 ^ 16)
    (hmsg : h.msg_type < 2 ^ 8) (hlen : h.length._0 < 2 ^ 24) :
    (serializeHeader h).length = 6 ∧ (∀ b ∈ serializeHeader h, b < 256) ∧
      parseHeader (serializeHeader h) = .ok h := by
  obtain ⟨e, m, ⟨l⟩⟩ := h
  simp only at hext hmsg hlen
  refine ⟨by simp [serializeHeader, toLeBytes, SV2_FRAME_HEADER_LEN_END], ?_, ?_⟩
  · intro b hb
    simp only [serializeHeader, List.mem_append] at hb
    rcases hb with (hb | hb) | hb
    · exact (toLeBytes_spec _ _).2 b hb
    · exact (toLeBytes_spec _ _).2 b hb
    · exact (toLeBytes_spec _ _).2 b hb
  · simp [parseHeader, serializeHeader, toLeBytes, fromLeBytes, SV2_FRAME_HEADER_SIZE,
      SV2_FRAME_HEADER_LEN_END, SV2_FRAME_HEADER_LEN_OFFSET]
    omega

/-- The theorem `header_round_trip` at the header with extension type `0x1234`, message
type `MESSAGE_TYPE_NEW_TEMPLATE` and the largest length, `2 ^ 24 - 1`. -/
theorem header_round_trip_witness :
    serializeHeader ⟨0x1234, MESSAGE_TYPE_NEW_TEMPLATE, ⟨0xffffff⟩⟩
        = [0x34, 0x12, 113, 0xff, 0xff, 0xff] ∧
      parseHeader (serializeHeader ⟨0x1234, MESSAGE_TYPE_NEW_TEMPLATE, ⟨0xffffff⟩⟩)
        = .ok ⟨0x1234, MESSAGE_TYPE_NEW_TEMPLATE, ⟨0xffffff⟩⟩ :=
  ⟨rfl, (header_round_trip ⟨0x1234, MESSAGE_TYPE_NEW_TEMPLATE, ⟨0xffffff⟩⟩
    (by decide) (by decide) (by decide)).2.2⟩

set_option maxRecDepth 100000 in
/-- C10: the 43 `MESSAGE_TYPE_` discriminants are pairwise distinct: two rows of the table
with different names have different discriminants, so a msg_type byte selects at most one
row. -/
theorem message_type_discriminants_distinct :
    messageTypes.length = 43 ∧
      (∀ e₁ ∈ messageTypes, ∀ e₂ ∈ messageTypes, e₁.1 ≠ e₂.1 → e₁.2 ≠ e₂.2) ∧
      (∀ b : Nat, (messageTypes.filter (fun e => e.2 = b)).length ≤ 1) := by
  refine ⟨by decide, by decide, ?_⟩
  intro b
  have hnodup : (messageTypes.map Prod.snd).Nodup := by decide
  have hcount := List.nodup_iff_count_le_one.mp hnodup b
  have heq : (messageTypes.filter (fun e => e.2 = b)).length
      = (messageTypes.map Prod.snd).count b := by
    rw [List.count, List.countP_map, List.countP_eq_length_filter]
    congr 2
  omega

/-- The theorem `message_type_discriminants_distinct` at the rows of the two messages named
SetNewPrevHash, the mining one (32) and the template-distribution one (114), and at the
byte 114. -/
theorem message_type_discriminants_distinct_witness :
    (32 : Nat) ≠ 114 ∧ (messageTypes.filter (fun e => e.2 = 114)).length ≤ 1 :=
  ⟨message_type_discriminants_distinct.2.1 ("MINING_SET_NEW_PREV_HASH", 32) (by decide)
      ("SET_NEW_PREV_HASH", 114) (by decide) (by decide),
    message_type_discriminants_distinct.2.2 114⟩

/-- C11: the maximum chunk size is 65535 bytes, the largest length a prefix of
`NOISE_FRAME_HEADER_SIZE` (2) bytes can represent, `2 ^ (8 * 2) - 1`: it survives being
written on that many bytes, every length read back from that many bytes is at most it,
and the next length, 65536, does not survive. -/
theorem chunk_size_is_max_prefix_length :
    SV2_FRAME_CHUNK_SIZE = 65535 ∧
      NOISE_FRAME_HEADER_SIZE = 2 ∧
      SV2_FRAME_CHUNK_SIZE = 2 ^ (8 * NOISE_FRAME_HEADER_SIZE) - 1 ∧
      fromLeBytes (toLeBytes SV2_FRAME_CHUNK_SIZE NOISE_FRAME_HEADER_SIZE)
        = SV2_FRAME_CHUNK_SIZE ∧
      (∀ n : Nat, fromLeBytes (toLeBytes n NOISE_FRAME_HEADER_SIZE) ≤ SV2_FRAME_CHUNK_SIZE) ∧
      fromLeBytes (toLeBytes (SV2_FRAME_CHUNK_SIZE + 1) NOISE_FRAME_HEADER_SIZE)
        ≠ SV2_FRAME_CHUNK_SIZE + 1 := by
  refine ⟨rfl, rfl, by decide, by decide, ?_, by decide⟩
  intro n
  rw [fromLeBytes_toLeBytes]
  have hlt : n % 256 ^ NOISE_FRAME_HEADER_SIZE < 256 ^ NOISE_FRAME_HEADER_SIZE :=
    Nat.mod_lt _ (by decide)
  have hpow : 256 ^ NOISE_FRAME_HEADER_SIZE = 65536 := by decide
  have hchunk : SV2_FRAME_CHUNK_SIZE = 65535 := rfl
  omega

end Sv2
